import Mathlib

/-!
Shallow embedding of the social-media content generator in `src/main.py`.

Two code paths are embedded:

* the active path: `generate_for_platform` (src/main.py lines 98-128) and the
  per-platform generation loop of the Generate Content button handler
  (lines 199-215);

* the dormant retry/validate pipeline kept in the commented draft
  (lines 344-446): `comprehensive_content_validator`, the LangGraph nodes
  `create_social_content_node`, `validate_content_node`, `should_continue`,
  `increment_retry_node`, and the graph wiring
  analyzer -> content_creator -> validator -> (retry_counter | END),
  plus `format_feedback_for_prompt` from the inner draft (lines 650-662).

Python dictionaries that may miss keys are embedded as structures of
`Option` fields; a dict access that can raise `KeyError` becomes a `match`
whose `none` arm reproduces the `except KeyError` branch.  External effects
(the model call, `os.getenv`) are passed in as explicit environment records,
and the number of outbound model calls is returned alongside the result.
-/

namespace SocialGen

/-! ## Python string primitives used by the source

The `str` methods the source calls (`in`, `startswith`, `strip`, `split`,
`replace`) are translated here as structural recursions over the character
list of the string, mirroring Python's documented behaviour.  (Lean's own
`String.splitOn`/`trim`/`startsWith` compute the same values but are defined
over byte positions, so they are avoided in favour of these.) -/

/-- One step of the substring scan: does `pat` occur in `hay`? -/
def charsContain (hay pat : List Char) : Bool :=
  match hay with
  | [] => pat.isEmpty
  | _ :: rest => pat.isPrefixOf hay || charsContain rest pat

/-- Python `sub in hay`: the substring test. -/
def pyContains (hay sub : String) : Bool :=
  charsContain hay.data sub.data

/-- Python `s.startswith(p)`. -/
def pyStartsWith (s p : String) : Bool :=
  p.data.isPrefixOf s.data

/-- The characters Python `str.strip()` removes (the ASCII whitespace;
no input of this program carries other Unicode whitespace). -/
def pyIsSpace (c : Char) : Bool :=
  c == ' ' || c == '\t' || c == '\n' || c == '\r' || c == '\x0b' || c == '\x0c'

/-- Python `s.strip()`: whitespace removed from both ends. -/
def pyStrip (s : String) : String :=
  String.mk (((s.data.dropWhile pyIsSpace).reverse.dropWhile pyIsSpace).reverse)

/-- Left-to-right scan of Python `s.split(sep)` for a non-empty `sep`:
`acc` holds the current piece reversed; at each position a `sep` match cuts
a piece, otherwise one character is consumed.  `fuel` only bounds the
recursion; each step consumes at least one character, so the callers'
`length + 1` fuel never runs out. -/
def pySplitAux (pat : List Char) : Nat → List Char → List Char → List (List Char)
  | 0, acc, s => [acc.reverse ++ s]
  | fuel + 1, acc, s =>
    if !pat.isEmpty && pat.isPrefixOf s then
      acc.reverse :: pySplitAux pat fuel [] (s.drop pat.length)
    else
      match s with
      | [] => [acc.reverse]
      | c :: rest => pySplitAux pat fuel (c :: acc) rest

/-- Python `s.split(sep)` for a non-empty separator. -/
def pySplit (s sep : String) : List String :=
  (pySplitAux sep.data (s.data.length + 1) [] s.data).map String.mk

/-- Scan of Python `s.replace(pat, rep)` for a non-empty `pat`; fueled like
`pySplitAux`. -/
def pyReplaceAux (pat rep : List Char) : Nat → List Char → List Char
  | 0, s => s
  | fuel + 1, s =>
    if !pat.isEmpty && pat.isPrefixOf s then
      rep ++ pyReplaceAux pat rep fuel (s.drop pat.length)
    else
      match s with
      | [] => []
      | c :: rest => c :: pyReplaceAux pat rep fuel rest

/-- Python `s.replace(pat, rep)`: every occurrence replaced. -/
def pyReplace (s pat rep : String) : String :=
  String.mk (pyReplaceAux pat.data rep.data (s.data.length + 1) s.data)

/-- Python `repr` of a string that contains no quote, backslash or control
character: the text wrapped in single quotes.  This is how `str.__repr__`
renders every string the concrete inputs of this development use. -/
def pyStrRepr (s : String) : String :=
  "'" ++ s ++ "'"

/-- Python `sep.join(xs)`. -/
def pyJoin (sep : String) : List String → String
  | [] => ""
  | [x] => x
  | x :: xs => x ++ sep ++ pyJoin sep xs

/-- Python `repr` of a list of such strings, as an f-string interpolates it:
`['a', 'b']`. -/
def pyListRepr (xs : List String) : String :=
  "[" ++ pyJoin ", " (xs.map pyStrRepr) ++ "]"

/-! ## Candidate content (the parsed JSON the validator receives)

`comprehensive_content_validator` (src/main.py lines 344-361) reads
`content['instagram']` with keys `caption`, `alt_text`, `hashtags` and
`content['pinterest']` with keys `title`, `description`, `keywords`.
Each key may be absent, so every field is an `Option`. -/

structure InstagramDict where
  caption : Option String
  alt_text : Option String
  hashtags : Option (List String)
deriving DecidableEq, Repr

structure PinterestDict where
  title : Option String
  description : Option String
  keywords : Option (List String)
deriving DecidableEq, Repr

structure Content where
  instagram : Option InstagramDict
  pinterest : Option PinterestDict
deriving DecidableEq, Repr

/-! ## The issue strings the validator emits (src/main.py lines 348-359) -/

/-- Message of the `except KeyError as e` branch (line 359): Python formats
`e` as the repr of the missing key. -/
def keyErrorIssue (k : String) : String :=
  "A required field is missing from the AI's response: " ++ pyStrRepr k

def igCaptionIssue : String := "Instagram Caption: Exceeds 2,200 characters."

def igAltIssue : String := "Instagram Alt Text: Exceeds 100 characters."

def igCountIssue (k : Nat) : String :=
  "Instagram Hashtags: Incorrect count (" ++ Nat.repr k ++ "). Must be 15-30."

def igMissingHashIssue (xs : List String) : String :=
  "Instagram Hashtags: Missing '#' on: " ++ pyListRepr xs

def pinTitleIssue : String := "Pinterest Title: Exceeds 100 characters."

def pinDescIssue : String := "Pinterest Description: Exceeds 500 characters."

def pinCountIssue (k : Nat) : String :=
  "Pinterest Keywords: Incorrect count (" ++ Nat.repr k ++ "). Must be 15-20."

def pinHasHashIssue (xs : List String) : String :=
  "Pinterest Keywords: Should not have '#': " ++ pyListRepr xs

/-! ## The validator (src/main.py lines 344-361)

One `try` block runs all checks in order, appending an issue string for each
violated constraint; the first missing key raises `KeyError`, which the single
`except` catches, appending the missing-key message to the issues gathered so
far and running no further check.  The nested matches below reproduce exactly
that control flow: each `none` arm is the `KeyError` jump. -/

def validatorIssues (content : Content) : List String :=
  match content.instagram with
  | none => [keyErrorIssue "instagram"]
  | some ig =>
    match ig.caption with
    | none => [keyErrorIssue "caption"]
    | some caption =>
    let issues := if 2200 < caption.length then [igCaptionIssue] else []
    match ig.alt_text with
    | none => issues ++ [keyErrorIssue "alt_text"]
    | some alt =>
    let issues := issues ++ (if 100 < alt.length then [igAltIssue] else [])
    match ig.hashtags with
    | none => issues ++ [keyErrorIssue "hashtags"]
    | some hashtags =>
    let issues := issues ++
      (if 15 ≤ hashtags.length ∧ hashtags.length ≤ 30 then []
       else [igCountIssue hashtags.length])
    let missing := hashtags.filter (fun h => ! pyStartsWith h "#")
    let issues := issues ++
      (if missing.isEmpty then [] else [igMissingHashIssue (missing.take 3)])
    match content.pinterest with
    | none => issues ++ [keyErrorIssue "pinterest"]
    | some pin =>
    match pin.title with
    | none => issues ++ [keyErrorIssue "title"]
    | some title =>
    let issues := issues ++ (if 100 < title.length then [pinTitleIssue] else [])
    match pin.description with
    | none => issues ++ [keyErrorIssue "description"]
    | some description =>
    let issues := issues ++
      (if 500 < description.length then [pinDescIssue] else [])
    match pin.keywords with
    | none => issues ++ [keyErrorIssue "keywords"]
    | some keywords =>
    let issues := issues ++
      (if 15 ≤ keywords.length ∧ keywords.length ≤ 20 then []
       else [pinCountIssue keywords.length])
    let has_hash := keywords.filter (fun k => pyStartsWith k "#")
    issues ++
      (if has_hash.isEmpty then [] else [pinHasHashIssue (has_hash.take 3)])

/-- Header of the failure feedback (line 361). -/
def validationHeader : String := "Validation Failed. You MUST fix these issues:"

/-- Line 361: `"\n- ".join([header] + issues) if issues else "Validation Passed"`. -/
def renderFeedback (issues : List String) : String :=
  if issues.isEmpty then "Validation Passed"
  else pyJoin "\n- " (validationHeader :: issues)

def comprehensive_content_validator (content : Content) : String :=
  renderFeedback (validatorIssues content)

/-! ## Feedback formatter (src/main.py lines 650-662, inner draft)

`format_feedback_for_prompt` receives the validator's feedback string,
strips the header, splits the issues back out, and numbers them `1..N`. -/

/-- Python `[f"{i+1}. {issue}" for i, issue in enumerate(valid_issues)]`. -/
def numberIssues (issues : List String) : List String :=
  issues.enum.map (fun p => Nat.repr (p.1 + 1) ++ ". " ++ p.2)

def feedbackBlockStart : String :=
  "<PREVIOUS_ATTEMPT_FEEDBACK>\nYou MUST fix the following errors from your last attempt:\n"

def feedbackBlockEnd : String := "\n</PREVIOUS_ATTEMPT_FEEDBACK>"

/-- Lines 650-662. -/
def format_feedback_for_prompt (feedback : String) : String :=
  if ! pyContains feedback "Failed" then ""
  else
    let issues := pySplit (pyStrip (pyReplace feedback validationHeader "")) "\n- "
    let valid_issues := (issues.map pyStrip).filter (fun s => s != "")
    if valid_issues.isEmpty then ""
    else
      let formatted_list := pyJoin "\n" (numberIssues valid_issues)
      feedbackBlockStart ++ formatted_list ++ feedbackBlockEnd

/-! ## The dormant retry pipeline (src/main.py lines 333-446)

The LangGraph `GraphState` of lines 333-340, minus `image_base64` and
`analysis`, which no claim touches: the runs below start right after a
successful `analyze_image_node`, which set `retry_count` to 0 and left
`error_history` empty (line 373).  A node returns a partial state update;
LangGraph merges it by overwriting the returned keys, which the
`{ s with ... }` updates reproduce. -/

structure GraphState where
  social_content : Option Content
  validation_feedback : String
  retry_count : Nat
  max_retries : Nat
  error_history : List String
deriving DecidableEq, Repr

/-- Environment of one job: the outcome of `(model | parser).invoke(prompt)`
inside `create_social_content_node` at each successive generation call
(indexed from 0), either parsed content or the message of the raised
exception (network, quota, malformed response). -/
structure RetryEnv where
  genOutcome : Nat → Except String Content

/-- Lines 377-408: on success the node overwrites `social_content`; on an
exception it overwrites `error_history` with the single failure message. -/
def create_social_content_node (env : RetryEnv) (calls : Nat) (s : GraphState) : GraphState :=
  match env.genOutcome calls with
  | Except.ok c => { s with social_content := some c }
  | Except.error e => { s with error_history := ["Content Generation Failed: " ++ e] }

/-- Lines 410-417: validate `social_content`, or report that none exists.
(Python's `if not content` is also taken by an empty dict; that case maps
here to a `Content` with both keys absent, for which the validator likewise
produces feedback containing "Failed", so every decision below is the
same.) -/
def validate_content_node (s : GraphState) : GraphState :=
  match s.social_content with
  | none => { s with validation_feedback := "Validation Failed: No content was generated." }
  | some c => { s with validation_feedback := comprehensive_content_validator c }

/-- The decision of `should_continue` (lines 420-431).  The code returns only
the strings "retry" and "end" to the graph; the three `end` arms are kept
distinct here because they are reached from distinct branches (error history
present / max retries reached / validation passed), which the code marks with
`st.error` output downstream, `st.warning` and `st.success` respectively. -/
inductive Route where
  | endError
  | retry
  | endMax
  | endSuccess
deriving DecidableEq, Repr

/-- Lines 420-431.  `"Failed" in feedback` is a substring test. -/
def should_continue (s : GraphState) : Route :=
  if s.error_history ≠ [] then Route.endError
  else if pyContains s.validation_feedback "Failed" then
    if s.max_retries ≤ s.retry_count then Route.endMax
    else Route.retry
  else Route.endSuccess

/-- Lines 433-434. -/
def increment_retry_node (s : GraphState) : GraphState :=
  { s with retry_count := s.retry_count + 1 }

inductive FinalStatus where
  | passedOk
  | maxRetriesReached
  | stoppedError
  | fuelOut
deriving DecidableEq, Repr

structure RunResult where
  final : GraphState
  genCalls : Nat
  status : FinalStatus
deriving DecidableEq, Repr

/-- The compiled graph's cycle (lines 436-446):
content_creator -> validator -> should_continue, looping through
retry_counter on "retry".  `fuel` bounds the recursion for Lean's
termination checker only; `runLoop_status_ne_fuelOut` below proves the
`fuelOut` result unreachable at the fuel `runJob` supplies, so the fueled
loop computes exactly what the unbounded graph execution computes.
`calls` counts the generation calls made so far. -/
def runLoop (env : RetryEnv) (fuel : Nat) (s : GraphState) (calls : Nat) : RunResult :=
  match fuel with
  | 0 => ⟨s, calls, FinalStatus.fuelOut⟩
  | fuel + 1 =>
    let s1 := create_social_content_node env calls s
    let s2 := validate_content_node s1
    match should_continue s2 with
    | Route.retry => runLoop env fuel (increment_retry_node s2) (calls + 1)
    | Route.endError => ⟨s2, calls + 1, FinalStatus.stoppedError⟩
    | Route.endMax => ⟨s2, calls + 1, FinalStatus.maxRetriesReached⟩
    | Route.endSuccess => ⟨s2, calls + 1, FinalStatus.passedOk⟩

/-- State right after a successful `analyze_image_node` (line 373): attempt
counter 0, no error history, no content yet. -/
def initialGraphState (maxRetries : Nat) : GraphState :=
  { social_content := none
    validation_feedback := ""
    retry_count := 0
    max_retries := maxRetries
    error_history := [] }

/-- One whole job after successful analysis, as `app.invoke` drives it
(line 470, with `max_retries` from the inputs dict). -/
def runJob (env : RetryEnv) (maxRetries : Nat) : RunResult :=
  runLoop env (maxRetries + 1) (initialGraphState maxRetries) 0

/-! ## The active generation path (src/main.py lines 98-128 and 199-215) -/

/-- Environment of one `generate_for_platform` call: the value of
`os.getenv("GOOGLE_API_KEY")`, the outcome of `model.invoke([message])`
(the response content, or the message of the raised exception), and the
outcome of `parser.parse` on that response.  `α` is the platform's parsed
content shape (the pydantic model's dict). -/
structure GenEnv (α : Type) where
  google_api_key : Option String
  invoke_result : Except String String
  parse_result : String → Except String α

/-- Message of the `ValueError` raised at line 115. -/
def configErrorMsg : String := "GOOGLE_API_KEY not found in environment variables."

/-- The `try` block of `generate_for_platform` (lines 112-125), with the
number of outbound model calls made recorded in the second component:
the `getenv` check raises before any call (0 calls), and each of the
remaining exits has performed exactly the one `model.invoke`. -/
def generate_try_body {α : Type} (env : GenEnv α) : Except String α × Nat :=
  match env.google_api_key with
  | none => (Except.error configErrorMsg, 0)
  | some _ =>
    match env.invoke_result with
    | Except.error e => (Except.error e, 1)
    | Except.ok response =>
      match env.parse_result response with
      | Except.error e => (Except.error e, 1)
      | Except.ok parsed => (Except.ok parsed, 1)

/-- Lines 112-128: the `except` clause catches every exception from the
`try` body, logs it with `st.error`, and returns `None`. -/
def generate_for_platform {α : Type} (env : GenEnv α) : Option α × Nat :=
  match generate_try_body env with
  | (Except.ok c, n) => (some c, n)
  | (Except.error _, n) => (none, n)

/-- The Generate Content button handler's loop (lines 201-212): for each
selected platform in order, call `generate_for_platform` and store the
result under the platform key only when it is not `None`.  The Python dict
`st.session_state.generated_content` (fresh and empty at line 201, distinct
string keys) is embedded as the insertion-ordered association list. -/
def generation_loop {α : Type} (selected : List String) (gen : String → Option α) :
    List (String × α) :=
  selected.foldl
    (fun acc key =>
      match gen key with
      | some c => acc ++ [(key, c)]
      | none => acc)
    []

/-! ## Concrete inputs used by counterexamples and witnesses -/

/-- A candidate with every required field present. -/
def fullContent (caption alt : String) (hashtags : List String)
    (title description : String) (keywords : List String) : Content :=
  { instagram := some { caption := some caption, alt_text := some alt, hashtags := some hashtags }
    pinterest := some { title := some title, description := some description,
                        keywords := some keywords } }

/-- A structurally complete candidate whose hashtag list is empty, so it
always fails validation with a count issue; the caption records which
attempt produced it. -/
def invalidContent (k : Nat) : Content :=
  fullContent (Nat.repr k) "" [] "t" "d" (List.replicate 15 "kw")

/-- A job whose model always answers with content that fails validation. -/
def envAlwaysInvalid : RetryEnv := ⟨fun k => Except.ok (invalidContent k)⟩

/-- A job whose first model call raises a hard failure. -/
def envHardFail : RetryEnv := ⟨fun _ => Except.error "503 Service Unavailable"⟩

def longTitle : String := String.mk (List.replicate 101 'a')

def longCaption : String := String.mk (List.replicate 2201 'c')

/-- Candidate missing the `instagram` key while its `pinterest` value
violates the title length bound. -/
def c3Content : Content :=
  { instagram := none
    pinterest := some { title := some longTitle, description := some "",
                        keywords := some (List.replicate 15 "kw") } }

def genEnvOk : GenEnv Unit :=
  { google_api_key := some "key", invoke_result := Except.ok "response",
    parse_result := fun _ => Except.ok () }

def genEnvNoKey : GenEnv Unit :=
  { google_api_key := none, invoke_result := Except.ok "response",
    parse_result := fun _ => Except.ok () }

def genEnvParseFail : GenEnv Unit :=
  { google_api_key := some "key", invoke_result := Except.ok "no json here",
    parse_result := fun _ => Except.error "Invalid json output" }

/-- Candidate whose hashtag list has two unmarked items and whose keyword
list has one marked item. -/
def w7Content : Content :=
  fullContent "cap" "alt" ["#ok", "plain", "bare"] "t" "d"
    (["#k1"] ++ List.replicate 15 "kw")

/-- A candidate satisfying every constraint. -/
def w8Content : Content :=
  fullContent "Great shot" "Photo" (List.replicate 15 "#tag") "Title" "Desc"
    (List.replicate 15 "keyword")

/-! ## Helper lemmas -/

theorem isPrefixOf_append_left {pat x : List Char} (t : List Char)
    (h : pat.isPrefixOf x = true) : pat.isPrefixOf (x ++ t) = true := by
  induction pat generalizing x with
  | nil => simp [List.isPrefixOf]
  | cons p ps ih =>
    cases x with
    | nil => simp [List.isPrefixOf] at h
    | cons a as =>
      simp only [List.cons_append, List.isPrefixOf, Bool.and_eq_true] at h ⊢
      exact ⟨h.1, ih h.2⟩

theorem charsContain_append_left {l pat : List Char} (t : List Char)
    (h : charsContain l pat = true) : charsContain (l ++ t) pat = true := by
  induction l with
  | nil =>
    simp only [charsContain, List.isEmpty_iff] at h
    subst h
    cases t with
    | nil => rfl
    | cons c cs => simp [charsContain, List.isPrefixOf]
  | cons a as ih =>
    simp only [charsContain, Bool.or_eq_true] at h ⊢
    rcases h with h | h
    · exact Or.inl (isPrefixOf_append_left t h)
    · exact Or.inr (ih h)

/-- Any feedback the validator renders for a non-empty issue list passes the
substring test `"Failed" in feedback` of `should_continue` and of
`format_feedback_for_prompt`. -/
theorem pyContains_renderFeedback_failed (issues : List String)
    (h : issues ≠ []) : pyContains (renderFeedback issues) "Failed" = true := by
  have hne : issues.isEmpty = false := by
    cases issues with
    | nil => exact absurd rfl h
    | cons a as => rfl
  cases issues with
  | nil => exact absurd rfl h
  | cons a as =>
    show pyContains (renderFeedback (a :: as)) "Failed" = true
    have hhead : ∃ t : List Char,
        (renderFeedback (a :: as)).data = validationHeader.data ++ t := by
      cases as with
      | nil => exact ⟨("\n- " ++ a).data, by simp [renderFeedback, pyJoin]⟩
      | cons b bs =>
        exact ⟨("\n- " ++ pyJoin "\n- " (a :: b :: bs)).data, by
          simp [renderFeedback, pyJoin]⟩
    obtain ⟨t, ht⟩ := hhead
    unfold pyContains
    rw [ht]
    exact charsContain_append_left t (by decide)

theorem create_node_retry_count (env : RetryEnv) (calls : Nat) (s : GraphState) :
    (create_social_content_node env calls s).retry_count = s.retry_count := by
  unfold create_social_content_node
  split <;> rfl

theorem create_node_max_retries (env : RetryEnv) (calls : Nat) (s : GraphState) :
    (create_social_content_node env calls s).max_retries = s.max_retries := by
  unfold create_social_content_node
  split <;> rfl

theorem validate_node_retry_count (s : GraphState) :
    (validate_content_node s).retry_count = s.retry_count := by
  unfold validate_content_node
  split <;> rfl

theorem validate_node_max_retries (s : GraphState) :
    (validate_content_node s).max_retries = s.max_retries := by
  unfold validate_content_node
  split <;> rfl

theorem validate_node_error_history (s : GraphState) :
    (validate_content_node s).error_history = s.error_history := by
  unfold validate_content_node
  split <;> rfl

theorem should_continue_retry_lt {s : GraphState}
    (h : should_continue s = Route.retry) : s.retry_count < s.max_retries := by
  unfold should_continue at h
  split_ifs at h
  all_goals simp_all

/-- The generation-call counter grows by at most one per loop iteration. -/
theorem runLoop_genCalls_le (env : RetryEnv) :
    ∀ (fuel : Nat) (s : GraphState) (calls : Nat),
      (runLoop env fuel s calls).genCalls ≤ calls + fuel := by
  intro fuel
  induction fuel with
  | zero => intro s calls; simp [runLoop]
  | succ n ih =>
    intro s calls
    rw [runLoop]
    split
    · exact (ih _ _).trans (by omega)
    all_goals (simp only [RunResult.mk.injEq]; omega)

/-- With fuel `max_retries + 1 - retry_count` the fueled loop never runs dry:
the retry branch is taken only while `retry_count < max_retries` and
increments `retry_count`. -/
theorem runLoop_status_ne_fuelOut (env : RetryEnv) :
    ∀ (fuel : Nat) (s : GraphState) (calls : Nat),
      s.retry_count ≤ s.max_retries →
      s.max_retries + 1 ≤ fuel + s.retry_count →
      (runLoop env fuel s calls).status ≠ FinalStatus.fuelOut := by
  intro fuel
  induction fuel with
  | zero => intro s calls h1 h2; omega
  | succ n ih =>
    intro s calls h1 h2
    rw [runLoop]
    split
    case _ heq =>
      have hlt := should_continue_retry_lt heq
      rw [validate_node_retry_count, validate_node_max_retries,
        create_node_retry_count, create_node_max_retries] at hlt
      apply ih
      · show (increment_retry_node _).retry_count ≤ (increment_retry_node _).max_retries
        unfold increment_retry_node
        simp only []
        rw [validate_node_retry_count, validate_node_max_retries,
          create_node_retry_count, create_node_max_retries]
        omega
      · show _ + 1 ≤ n + (increment_retry_node _).retry_count
        unfold increment_retry_node
        simp only []
        rw [validate_node_retry_count, validate_node_max_retries,
          create_node_retry_count, create_node_max_retries]
        omega
    all_goals simp

theorem generation_loop_go {α : Type} (gen : String → Option α) :
    ∀ (selected : List String) (acc : List (String × α)),
      selected.foldl
        (fun acc key =>
          match gen key with
          | some c => acc ++ [(key, c)]
          | none => acc) acc =
      acc ++ selected.filterMap (fun k => (gen k).map (fun c => (k, c))) := by
  intro selected
  induction selected with
  | nil => intro acc; simp
  | cons k rest ih =>
    intro acc
    simp only [List.foldl_cons, List.filterMap_cons]
    cases h : gen k with
    | none => simp [h, ih]
    | some c => simp [h, ih]

/-- One loop iteration whose generation call parses successfully. -/
theorem runLoop_step_ok (env : RetryEnv) (fuel calls : Nat) (s : GraphState) (c : Content)
    (h : env.genOutcome calls = Except.ok c) :
    runLoop env (fuel + 1) s calls =
      (let s2 : GraphState :=
        { s with social_content := some c
                 validation_feedback := comprehensive_content_validator c }
       match should_continue s2 with
       | Route.retry => runLoop env fuel (increment_retry_node s2) (calls + 1)
       | Route.endError => ⟨s2, calls + 1, FinalStatus.stoppedError⟩
       | Route.endMax => ⟨s2, calls + 1, FinalStatus.maxRetriesReached⟩
       | Route.endSuccess => ⟨s2, calls + 1, FinalStatus.passedOk⟩) := by
  rw [runLoop]
  have hc : create_social_content_node env calls s = { s with social_content := some c } := by
    unfold create_social_content_node
    rw [h]
  rw [hc]
  rfl

theorem should_continue_failed_retry {s : GraphState}
    (hh : s.error_history = []) (hf : pyContains s.validation_feedback "Failed" = true)
    (hlt : s.retry_count < s.max_retries) : should_continue s = Route.retry := by
  unfold should_continue
  rw [if_neg (by simp [hh]), if_pos hf, if_neg (by omega)]

theorem should_continue_failed_stop {s : GraphState}
    (hh : s.error_history = []) (hf : pyContains s.validation_feedback "Failed" = true)
    (hge : s.max_retries ≤ s.retry_count) : should_continue s = Route.endMax := by
  unfold should_continue
  rw [if_neg (by simp [hh]), if_pos hf, if_pos hge]

/-- The validator on a candidate with every field present: the single pass
accumulates the contribution of every check, in source order. -/
theorem validatorIssues_fullContent (caption alt title description : String)
    (hashtags keywords : List String) :
    validatorIssues (fullContent caption alt hashtags title description keywords) =
      (if 2200 < caption.length then [igCaptionIssue] else []) ++
      (if 100 < alt.length then [igAltIssue] else []) ++
      (if 15 ≤ hashtags.length ∧ hashtags.length ≤ 30 then []
       else [igCountIssue hashtags.length]) ++
      (if (hashtags.filter (fun h => ! pyStartsWith h "#")).isEmpty then []
       else [igMissingHashIssue ((hashtags.filter (fun h => ! pyStartsWith h "#")).take 3)]) ++
      (if 100 < title.length then [pinTitleIssue] else []) ++
      (if 500 < description.length then [pinDescIssue] else []) ++
      (if 15 ≤ keywords.length ∧ keywords.length ≤ 20 then []
       else [pinCountIssue keywords.length]) ++
      (if (keywords.filter (fun k => pyStartsWith k "#")).isEmpty then []
       else [pinHasHashIssue ((keywords.filter (fun k => pyStartsWith k "#")).take 3)]) := rfl

/-! ## Claim theorems -/

/-- C1 counterexample: with `max_retries = 2` (the budget the active draft
passes at line 469) and every attempt failing validation, the controller
makes 3 generation calls, not 2, and only stops after attempt 2 — the
claimed bound of `max_attempts = 2` total calls with a stop after attempt 1
is false on the code. -/
theorem retry_budget_claim_counterexample :
    (runJob envAlwaysInvalid 2).genCalls = 3 ∧
    ¬ (runJob envAlwaysInvalid 2).genCalls ≤ 2 ∧
    (runJob envAlwaysInvalid 2).status = FinalStatus.maxRetriesReached ∧
    (runJob envAlwaysInvalid 2).final.social_content = some (invalidContent 2) :=
  ⟨by decide, by decide, by decide, by decide⟩

/-- C1 (amended): the controller never exceeds `max_retries + 1` generation
calls for one job (and the fueled embedding never exhausts its fuel); and
with `max_retries = 1`, a job whose attempt 0 and attempt 1 both fail
validation stops after attempt 1 — two total generation calls — with the
max-retries-reached status and the last attempt's content in the final
state. -/
theorem retry_budget_bound :
    (∀ (env : RetryEnv) (m : Nat),
        (runJob env m).genCalls ≤ m + 1 ∧ (runJob env m).status ≠ FinalStatus.fuelOut) ∧
    (∀ (env : RetryEnv) (c0 c1 : Content),
        env.genOutcome 0 = Except.ok c0 →
        env.genOutcome 1 = Except.ok c1 →
        pyContains (comprehensive_content_validator c0) "Failed" = true →
        pyContains (comprehensive_content_validator c1) "Failed" = true →
        (runJob env 1).genCalls = 2 ∧
        (runJob env 1).status = FinalStatus.maxRetriesReached ∧
        (runJob env 1).final.social_content = some c1) := by
  constructor
  · intro env m
    refine ⟨?_, ?_⟩
    · have h := runLoop_genCalls_le env (m + 1) (initialGraphState m) 0
      simpa [runJob] using h
    · exact runLoop_status_ne_fuelOut env (m + 1) (initialGraphState m) 0
        (by simp [initialGraphState]) (by simp [initialGraphState])
  · intro env c0 c1 h0 h1 hv0 hv1
    have e1 : runJob env 1 =
        runLoop env (0 + 1)
          { social_content := some c0
            validation_feedback := comprehensive_content_validator c0
            retry_count := 1
            max_retries := 1
            error_history := [] } 1 := by
      show runLoop env (1 + 1) (initialGraphState 1) 0 = _
      rw [runLoop_step_ok env 1 0 (initialGraphState 1) c0 h0]
      dsimp only [initialGraphState]
      rw [should_continue_failed_retry rfl hv0 (by exact Nat.zero_lt_one)]
      rfl
    have e2 : runLoop env (0 + 1)
        { social_content := some c0
          validation_feedback := comprehensive_content_validator c0
          retry_count := 1
          max_retries := 1
          error_history := [] } 1 =
        ⟨{ social_content := some c1
           validation_feedback := comprehensive_content_validator c1
           retry_count := 1
           max_retries := 1
           error_history := [] }, 2, FinalStatus.maxRetriesReached⟩ := by
      rw [runLoop_step_ok env 0 1 _ c1 h1]
      dsimp only []
      rw [should_continue_failed_stop rfl hv1 (by exact Nat.le_refl 1)]
    rw [e1, e2]
    exact ⟨rfl, rfl, rfl⟩

/-- Witness for C1 (amended): a concrete always-failing job with
`max_retries = 1` makes exactly 2 generation calls, ends budget-exhausted,
and carries attempt 1's content. -/
theorem retry_budget_bound_witness :
    (runJob envAlwaysInvalid 1).genCalls = 2 ∧
    (runJob envAlwaysInvalid 1).status = FinalStatus.maxRetriesReached ∧
    (runJob envAlwaysInvalid 1).final.social_content = some (invalidContent 1) :=
  retry_budget_bound.2 envAlwaysInvalid (invalidContent 0) (invalidContent 1)
    rfl rfl (by decide) (by decide)

/-- C2: once `error_history` is non-empty the decision function routes the
job to the terminal end regardless of feedback and remaining budget; and a
hard failure (network, quota, malformed response) at any generation call
stops the job right there — exactly one more generation call total from that
point, terminal stopped-with-error status, the failure recorded — whatever
the remaining retry budget in `s` is. -/
theorem hard_failure_halts :
    (∀ s : GraphState, s.error_history ≠ [] → should_continue s = Route.endError) ∧
    (∀ (env : RetryEnv) (fuel : Nat) (s : GraphState) (calls : Nat) (e : String),
        env.genOutcome calls = Except.error e →
        (runLoop env (fuel + 1) s calls).genCalls = calls + 1 ∧
        (runLoop env (fuel + 1) s calls).status = FinalStatus.stoppedError ∧
        (runLoop env (fuel + 1) s calls).final.error_history =
          ["Content Generation Failed: " ++ e]) := by
  constructor
  · intro s h
    unfold should_continue
    rw [if_pos h]
  · intro env fuel s calls e h
    have hist : (validate_content_node (create_social_content_node env calls s)).error_history
        = ["Content Generation Failed: " ++ e] := by
      rw [validate_node_error_history]
      unfold create_social_content_node
      rw [h]
    have hsc : should_continue (validate_content_node (create_social_content_node env calls s))
        = Route.endError := by
      unfold should_continue
      rw [if_pos (by rw [hist]; exact fun hc => List.noConfusion hc)]
    rw [runLoop]
    rw [hsc]
    exact ⟨rfl, rfl, hist⟩

/-- Witness for C2: a job whose very first call hits a hard failure stops
with one generation call even though five retries remain in the budget. -/
theorem hard_failure_halts_witness :
    (runLoop envHardFail (0 + 1) (initialGraphState 5) 0).genCalls = 0 + 1 ∧
    (runLoop envHardFail (0 + 1) (initialGraphState 5) 0).status = FinalStatus.stoppedError ∧
    (runLoop envHardFail (0 + 1) (initialGraphState 5) 0).final.error_history =
      ["Content Generation Failed: " ++ "503 Service Unavailable"] :=
  hard_failure_halts.2 envHardFail 0 (initialGraphState 5) 0 "503 Service Unavailable" rfl

/-- C3 counterexample: on a candidate whose `instagram` key is missing while
its `pinterest` title exceeds 100 characters, the validator reports exactly
the one missing-field issue — the pinterest checks never run, so the title
violation is not reported, contradicting the claim that every other field's
checks still run; and the issue text is not the claimed
"A required field is missing: instagram". -/
theorem missing_field_claim_counterexample :
    validatorIssues c3Content = [keyErrorIssue "instagram"] ∧
    100 < longTitle.length ∧
    pinTitleIssue ∉ validatorIssues c3Content ∧
    keyErrorIssue "instagram" ≠ "A required field is missing: instagram" :=
  ⟨rfl, by decide, by decide, by decide⟩

/-- C3 (amended): a missing required field fails with the issue
"A required field is missing from the AI's response: '<field>'" and aborts
every remaining check of the single try block — this field's and all later
fields' — while issues recorded before the missing field are kept:
a missing `instagram` key yields only that issue whatever `pinterest`
holds, and a missing `alt_text` key keeps the earlier caption issue and
skips everything after it. -/
theorem missing_field_aborts_validation :
    (∀ pin : Option PinterestDict,
        validatorIssues { instagram := none, pinterest := pin } =
          [keyErrorIssue "instagram"]) ∧
    (∀ (caption : String) (hs : Option (List String)) (pin : Option PinterestDict),
        2200 < caption.length →
        validatorIssues
          { instagram := some { caption := some caption, alt_text := none, hashtags := hs }
            pinterest := pin } =
          [igCaptionIssue, keyErrorIssue "alt_text"]) := by
  constructor
  · intro pin
    rfl
  · intro caption hs pin h
    show (if 2200 < caption.length then [igCaptionIssue] else []) ++
        [keyErrorIssue "alt_text"] = _
    rw [if_pos h]
    rfl

/-- Witness for C3 (amended): a 2201-character caption with a missing
`alt_text` key yields the caption issue followed by the missing-field issue
and nothing else. -/
theorem missing_field_aborts_validation_witness :
    validatorIssues
      { instagram := some { caption := some longCaption, alt_text := none,
                            hashtags := some [] }
        pinterest := none } =
      [igCaptionIssue, keyErrorIssue "alt_text"] :=
  missing_field_aborts_validation.2 longCaption (some []) none
    (by
      have h : longCaption.length = 2201 := by
        show (List.replicate 2201 'c').length = 2201
        rw [List.length_replicate]
      omega)

/-- C4: a candidate whose hashtag list violates both the cardinality bound
15-30 and the required-marker rule — three items, two of them lacking the
marker — while every other field is compliant, fails in one pass with
exactly the two issues: the count issue for count 3 and the marker issue
naming the two offending items. -/
theorem count_and_marker_violations_both_reported
    (caption alt title description h1 h2 h3 : String) (keywords : List String)
    (hcap : caption.length ≤ 2200) (halt : alt.length ≤ 100)
    (hm1 : pyStartsWith h1 "#" = true)
    (hm2 : pyStartsWith h2 "#" = false) (hm3 : pyStartsWith h3 "#" = false)
    (ht : title.length ≤ 100) (hd : description.length ≤ 500)
    (hkc : 15 ≤ keywords.length) (hkc2 : keywords.length ≤ 20)
    (hkp : ∀ k ∈ keywords, pyStartsWith k "#" = false) :
    validatorIssues (fullContent caption alt [h1, h2, h3] title description keywords) =
      [igCountIssue 3, igMissingHashIssue [h2, h3]] ∧
    pyContains
      (comprehensive_content_validator
        (fullContent caption alt [h1, h2, h3] title description keywords)) "Failed" = true := by
  have hkfilter : keywords.filter (fun k => pyStartsWith k "#") = [] := by
    rw [List.filter_eq_nil_iff]
    intro a ha
    simp [hkp a ha]
  have hfilter : [h1, h2, h3].filter (fun h => ! pyStartsWith h "#") = [h2, h3] := by
    simp [List.filter_cons, hm1, hm2, hm3]
  have hmain : validatorIssues (fullContent caption alt [h1, h2, h3] title description keywords) =
      [igCountIssue 3, igMissingHashIssue [h2, h3]] := by
    rw [validatorIssues_fullContent, hfilter, hkfilter]
    have c1 : ¬ (2200 < caption.length) := by omega
    have c2 : ¬ (100 < alt.length) := by omega
    have c5 : ¬ (100 < title.length) := by omega
    have c6 : ¬ (500 < description.length) := by omega
    simp [c1, c2, c5, c6, hkc, hkc2]
  refine ⟨hmain, ?_⟩
  show pyContains (renderFeedback _) "Failed" = true
  apply pyContains_renderFeedback_failed
  rw [hmain]
  exact fun hc => List.noConfusion hc

/-- Witness for C4: concrete compliant fields with hashtags
`["#one", "two", "three"]` produce exactly the count issue and the marker
issue naming `two` and `three`. -/
theorem count_and_marker_violations_both_reported_witness :
    validatorIssues
      (fullContent "c" "a" ["#one", "two", "three"] "t" "d" (List.replicate 15 "kw")) =
      [igCountIssue 3, igMissingHashIssue ["two", "three"]] ∧
    pyContains
      (comprehensive_content_validator
        (fullContent "c" "a" ["#one", "two", "three"] "t" "d" (List.replicate 15 "kw")))
      "Failed" = true :=
  count_and_marker_violations_both_reported "c" "a" "t" "d" "#one" "two" "three"
    (List.replicate 15 "kw") (by decide) (by decide) (by decide) (by decide) (by decide)
    (by decide) (by decide) (by decide) (by decide) (by decide)

/-- C5: one invocation of `generate_for_platform` performs at most one
outbound model call, and — whenever credentials are present, so the call
site is reached — exactly one, whether the call raises, the response fails
to parse, or everything succeeds.  No internal retry exists. -/
theorem single_model_call_per_invocation {α : Type} (env : GenEnv α) :
    (generate_for_platform env).2 ≤ 1 ∧
    (env.google_api_key.isSome = true → (generate_for_platform env).2 = 1) := by
  obtain ⟨key, inv, par⟩ := env
  cases key with
  | none =>
    refine ⟨by exact Nat.zero_le 1, fun h => ?_⟩
    simp at h
  | some k =>
    cases inv with
    | error e => exact ⟨by exact Nat.le_refl 1, fun _ => rfl⟩
    | ok response =>
      cases hp : par response with
      | error e =>
        refine ⟨?_, fun _ => ?_⟩ <;>
          simp [generate_for_platform, generate_try_body, hp]
      | ok c =>
        refine ⟨?_, fun _ => ?_⟩ <;>
          simp [generate_for_platform, generate_try_body, hp]

/-- Witness for C5: with credentials present and a parsing response, exactly
one model call is made. -/
theorem single_model_call_per_invocation_witness :
    genEnvOk.google_api_key.isSome = true ∧ (generate_for_platform genEnvOk).2 = 1 :=
  ⟨rfl, (single_model_call_per_invocation genEnvOk).2 rfl⟩

set_option maxRecDepth 16384 in
/-- C6: feedback formatting is deterministic (the spec's reading of
idempotent: formatting the same issues twice yields the same text); an
empty issue list — whether rendered as "Validation Passed" or handed over
as an empty feedback string — formats to the empty string; `numberIssues`
numbers the issues 1..N in input order; and on a rendered two-issue
feedback the full pipeline emits the numbered block (the split leaves the
stripped leading "- " on the first issue, preserving order and count). -/
theorem feedback_formatting_properties :
    (∀ feedback : String,
        format_feedback_for_prompt feedback = format_feedback_for_prompt feedback) ∧
    (format_feedback_for_prompt (renderFeedback []) = "" ∧
      format_feedback_for_prompt "" = "") ∧
    (∀ (vs : List String) (i : Nat) (issue : String),
        vs[i]? = some issue →
        (numberIssues vs)[i]? = some (Nat.repr (i + 1) ++ ". " ++ issue)) ∧
    format_feedback_for_prompt (renderFeedback [igCaptionIssue, igAltIssue]) =
      "<PREVIOUS_ATTEMPT_FEEDBACK>\nYou MUST fix the following errors from your last attempt:\n1. - Instagram Caption: Exceeds 2,200 characters.\n2. Instagram Alt Text: Exceeds 100 characters.\n</PREVIOUS_ATTEMPT_FEEDBACK>" := by
  refine ⟨fun _ => rfl, ⟨by decide, by decide⟩, ?_, by decide⟩
  intro vs i issue h
  unfold numberIssues
  rw [List.getElem?_map, List.getElem?_enum, h]
  rfl

/-- Witness for C6: the second issue of a two-issue list is numbered 2. -/
theorem feedback_formatting_properties_witness :
    (numberIssues ["Issue A", "Issue B"])[1]? =
      some (Nat.repr (1 + 1) ++ ". " ++ "Issue B") :=
  feedback_formatting_properties.2.2.1 ["Issue A", "Issue B"] 1 "Issue B" rfl

/-- C7: for both list rules — the required marker on hashtags and the
forbidden marker on keywords — the reported issue names at most the first
3 offending items (`take 3`), the issue is still reported whenever any
offender exists, and the single pass accumulates every check's
contribution in source order rather than aborting at the first offense. -/
theorem offenders_capped_and_issues_cumulative
    (caption alt title description : String) (hashtags keywords : List String) :
    ((hashtags.filter (fun h => ! pyStartsWith h "#")).take 3).length ≤ 3 ∧
    ((keywords.filter (fun k => pyStartsWith k "#")).take 3).length ≤ 3 ∧
    (¬ (hashtags.filter (fun h => ! pyStartsWith h "#")).isEmpty = true →
      igMissingHashIssue ((hashtags.filter (fun h => ! pyStartsWith h "#")).take 3) ∈
        validatorIssues (fullContent caption alt hashtags title description keywords)) ∧
    (¬ (keywords.filter (fun k => pyStartsWith k "#")).isEmpty = true →
      pinHasHashIssue ((keywords.filter (fun k => pyStartsWith k "#")).take 3) ∈
        validatorIssues (fullContent caption alt hashtags title description keywords)) ∧
    validatorIssues (fullContent caption alt hashtags title description keywords) =
      (if 2200 < caption.length then [igCaptionIssue] else []) ++
      (if 100 < alt.length then [igAltIssue] else []) ++
      (if 15 ≤ hashtags.length ∧ hashtags.length ≤ 30 then []
       else [igCountIssue hashtags.length]) ++
      (if (hashtags.filter (fun h => ! pyStartsWith h "#")).isEmpty then []
       else [igMissingHashIssue ((hashtags.filter (fun h => ! pyStartsWith h "#")).take 3)]) ++
      (if 100 < title.length then [pinTitleIssue] else []) ++
      (if 500 < description.length then [pinDescIssue] else []) ++
      (if 15 ≤ keywords.length ∧ keywords.length ≤ 20 then []
       else [pinCountIssue keywords.length]) ++
      (if (keywords.filter (fun k => pyStartsWith k "#")).isEmpty then []
       else [pinHasHashIssue ((keywords.filter (fun k => pyStartsWith k "#")).take 3)]) := by
  refine ⟨?_, ?_, ?_, ?_, validatorIssues_fullContent caption alt title description hashtags keywords⟩
  · simp [List.length_take]
  · simp [List.length_take]
  · intro h
    rw [Bool.not_eq_true] at h
    rw [validatorIssues_fullContent]
    simp [h, List.mem_append]
  · intro h
    rw [Bool.not_eq_true] at h
    rw [validatorIssues_fullContent]
    simp [h, List.mem_append]

/-- Witness for C7: on a candidate with offenders in both lists, both
capped offender issues are reported. -/
theorem offenders_capped_and_issues_cumulative_witness :
    igMissingHashIssue ["plain", "bare"] ∈ validatorIssues w7Content ∧
    pinHasHashIssue ["#k1"] ∈ validatorIssues w7Content := by
  have h := offenders_capped_and_issues_cumulative "cap" "alt" "t" "d"
    ["#ok", "plain", "bare"] (["#k1"] ++ List.replicate 15 "kw")
  exact ⟨h.2.2.1 (by decide), h.2.2.2.1 (by decide)⟩

/-- C8: a candidate with every field present and every constraint satisfied
— caption and alt within their length bounds, hashtag count in 15-30 with
every item marked, title and description within bounds, keyword count in
15-20 with no item marked — passes validation with zero issues. -/
theorem compliant_content_passes
    (caption alt title description : String) (hashtags keywords : List String)
    (hcap : caption.length ≤ 2200) (halt : alt.length ≤ 100)
    (hhc : 15 ≤ hashtags.length) (hhc2 : hashtags.length ≤ 30)
    (hhp : ∀ h ∈ hashtags, pyStartsWith h "#" = true)
    (ht : title.length ≤ 100) (hd : description.length ≤ 500)
    (hkc : 15 ≤ keywords.length) (hkc2 : keywords.length ≤ 20)
    (hkp : ∀ k ∈ keywords, pyStartsWith k "#" = false) :
    validatorIssues (fullContent caption alt hashtags title description keywords) = [] ∧
    comprehensive_content_validator (fullContent caption alt hashtags title description keywords) =
      "Validation Passed" := by
  have hmiss : hashtags.filter (fun h => ! pyStartsWith h "#") = [] := by
    rw [List.filter_eq_nil_iff]
    intro a ha
    simp [hhp a ha]
  have hhash : keywords.filter (fun k => pyStartsWith k "#") = [] := by
    rw [List.filter_eq_nil_iff]
    intro a ha
    simp [hkp a ha]
  have hmain : validatorIssues (fullContent caption alt hashtags title description keywords) = [] := by
    rw [validatorIssues_fullContent, hmiss, hhash]
    have c1 : ¬ (2200 < caption.length) := by omega
    have c2 : ¬ (100 < alt.length) := by omega
    have c5 : ¬ (100 < title.length) := by omega
    have c6 : ¬ (500 < description.length) := by omega
    simp [c1, c2, c5, c6, hhc, hhc2, hkc, hkc2]
  refine ⟨hmain, ?_⟩
  show renderFeedback _ = _
  rw [hmain]
  rfl

/-- Witness for C8: a concrete fully compliant candidate passes with zero
issues. -/
theorem compliant_content_passes_witness :
    validatorIssues w8Content = [] ∧
    comprehensive_content_validator w8Content = "Validation Passed" :=
  compliant_content_passes "Great shot" "Photo" "Title" "Desc"
    (List.replicate 15 "#tag") (List.replicate 15 "keyword")
    (by decide) (by decide) (by decide) (by decide) (by decide) (by decide)
    (by decide) (by decide) (by decide) (by decide)

/-- C9: with `GOOGLE_API_KEY` absent from the environment, the try body of
`generate_for_platform` raises the configuration `ValueError` before any
model call — zero outbound calls — and the invocation returns `None`. -/
theorem missing_credentials_fail_fast {α : Type} (env : GenEnv α)
    (h : env.google_api_key = none) :
    generate_try_body env = (Except.error configErrorMsg, 0) ∧
    generate_for_platform env = (none, 0) := by
  obtain ⟨key, inv, par⟩ := env
  subst h
  exact ⟨rfl, rfl⟩

/-- Witness for C9: a concrete keyless environment makes zero calls and
returns `None` with the configuration error. -/
theorem missing_credentials_fail_fast_witness :
    generate_try_body genEnvNoKey = (Except.error configErrorMsg, 0) ∧
    generate_for_platform genEnvNoKey = (none, 0) :=
  missing_credentials_fail_fast genEnvNoKey rfl

/-- C10: every exception of the try body is caught and returned as `None`
(never propagated), and the per-platform loop stores exactly the selected
platforms whose generation succeeded, in selection order — a `None` for one
platform contributes nothing and leaves the others' entries unchanged. -/
theorem generation_errors_confined {α : Type} :
    (∀ (env : GenEnv α) (e : String) (n : Nat),
        generate_try_body env = (Except.error e, n) →
        generate_for_platform env = (none, n)) ∧
    (∀ (selected : List String) (gen : String → Option α),
        generation_loop selected gen =
          selected.filterMap (fun k => (gen k).map (fun c => (k, c)))) := by
  constructor
  · intro env e n h
    unfold generate_for_platform
    rw [h]
  · intro selected gen
    unfold generation_loop
    rw [generation_loop_go gen selected []]
    rfl

/-- Witness for C10: an unparsable response is returned as `None` after its
one model call, and a loop over three platforms where the middle one fails
keeps exactly the two successful ones in order. -/
theorem generation_errors_confined_witness :
    generate_for_platform genEnvParseFail = (none, 1) ∧
    generation_loop ["instagram", "facebook", "x"]
      (fun k => if k = "facebook" then (none : Option Unit) else some ()) =
      [("instagram", ()), ("x", ())] :=
  ⟨(@generation_errors_confined Unit).1 genEnvParseFail "Invalid json output" 1 rfl,
    by decide⟩

end SocialGen
